import Mathlib

/- Shallow embedding of findColorPages.py.

   The program scans a PDF document and (a) classifies each page as colored or
   monochrome with is_color_page, and (b) extracts captioned figure references
   with extract_figure_info / find_figure_pages.

   Modelling conventions:
   - The external PDF library, PIL and numpy are collaborators; the data they
     hand to the program is a field of the Page / XObj structures, and an
     operation of theirs that can raise is an Except Unit value.
   - The regular-expression matcher of the content-stream scanner (re.findall,
     lines 35-43) is modelled at the match level: a page carries the lists of
     captured matches for the four patterns.  The three-group RGB patterns
     capture numerals, and float() of a captured numeral always succeeds, so
     those matches are carried as parsed rationals.  The one-group gray
     patterns produce plain strings in Python, and the loop body then indexes
     into those strings character by character (a len(match) == 3 string is
     treated as an RGB triple of single characters, lines 45-48), so gray
     matches are carried as raw strings and the character indexing and float()
     parsing are modelled faithfully.
   - Python floats are idealised as exact rationals.
   - The figure regular expression (line 186) is simple enough to be executed
     literally; it is implemented below over lists of characters with the
     exact Python semantics (greedy subpatterns, leftmost scan, IGNORECASE on
     the literal word).
-/

abbrev Pixel := Nat × Nat × Nat

/- ===== content-stream scanner, lines 22-55 ===== -/

/-- Match data of the four re.findall calls (line 43) over the concatenated
content stream.  The two RGB patterns have three capture groups, the two
gray patterns have one. -/
structure ScanData where
  rgMatches : List (ℚ × ℚ × ℚ)
  rgStrokeMatches : List (ℚ × ℚ × ℚ)
  grayMatches : List String
  grayStrokeMatches : List String

/-- Line 47: r == g == b on the parsed triple. -/
def allEqTriple (t : ℚ × ℚ × ℚ) : Bool :=
  decide (t.1 = t.2.1 ∧ t.2.1 = t.2.2)

/-- Lines 44-48 for a three-group pattern: first triple whose components are
not all equal returns True. -/
def scanTriples : List (ℚ × ℚ × ℚ) → Except Unit Bool
  | [] => .ok false
  | t :: rest => if allEqTriple t then scanTriples rest else .ok true

def isDigitC (c : Char) : Bool := decide ('0' ≤ c) && decide (c ≤ '9')

/-- float() applied to a single character (match[i] of a one-group match
string, line 46): a digit parses, anything else (for instance the dot of a
numeral such as 0.5) raises ValueError. -/
def charFloat (c : Char) : Except Unit ℚ :=
  if isDigitC c then .ok ((c.toNat - 48 : ℕ) : ℚ) else .error ()

/-- Lines 44-53 for one match string of a one-group gray pattern.  In Python
the match is a plain string, so the branch on len(match) == 3 fires for a
three-character numeral and indexes single characters; the branch on
len(match) == 1 parses the character and then does nothing (line 53). -/
def grayStep (s : String) : Except Unit Bool :=
  match s.data with
  | [c0, c1, c2] =>
    match charFloat c0 with
    | .error e => .error e
    | .ok r =>
      match charFloat c1 with
      | .error e => .error e
      | .ok g =>
        match charFloat c2 with
        | .error e => .error e
        | .ok b => .ok (decide (¬(r = g ∧ g = b)))
  | [c0] =>
    match charFloat c0 with
    | .error e => .error e
    | .ok _ => .ok false
  | _ => .ok false

def scanGrays : List String → Except Unit Bool
  | [] => .ok false
  | s :: rest =>
    match grayStep s with
    | .error e => .error e
    | .ok true => .ok true
    | .ok false => scanGrays rest

/-- The pattern loop of lines 42-53, in source order rg, RG, g, G.  ok true
means return True (line 48); error means an exception escaped to the handler
of line 54. -/
def vectorScanE (m : ScanData) : Except Unit Bool :=
  match scanTriples m.rgMatches with
  | .error e => .error e
  | .ok true => .ok true
  | .ok false =>
    match scanTriples m.rgStrokeMatches with
    | .error e => .error e
    | .ok true => .ok true
    | .ok false =>
      match scanGrays m.grayMatches with
      | .error e => .error e
      | .ok true => .ok true
      | .ok false => scanGrays m.grayStrokeMatches

/-- Verdict of the content-stream block: an exception is absorbed by the
except of line 54 and counts as no signal. -/
def vectorVerdict (m : ScanData) : Bool :=
  match vectorScanE m with
  | .ok b => b
  | .error _ => false

/- ===== colorspace metadata, lines 79-89 ===== -/

/-- A declared colorspace: either a single name object or an array. -/
inductive CSVal
  | single (s : String)
  | arr (l : List String)

/-- Lines 82-85: str(colorspace[0]) for a nonempty array, str(colorspace)
otherwise; str of an empty Python list prints as a bracket pair, which
contains none of the color names. -/
def csName : CSVal → String
  | .single s => s
  | .arr (h :: _) => h
  | .arr [] => "[]"

def startsWith : List Char → List Char → Bool
  | [], _ => true
  | _ :: _, [] => false
  | a :: as, b :: bs => a == b && startsWith as bs

def hasSub (needle : List Char) : List Char → Bool
  | [] => needle.isEmpty
  | c :: rest => startsWith needle (c :: rest) || hasSub needle rest

/-- Line 88: any of RGB, Lab, DeviceRGB occurs as a substring of cs_name. -/
def csIndicatesColor (s : String) : Bool :=
  [("RGB" : String), ("Lab" : String), ("DeviceRGB" : String)].any
    (fun cs => hasSub cs.data s.data)

/- ===== embedded image objects ===== -/

/-- A decoded PIL image: its original mode and the pixel grid after the
normalisation of lines 97-101 (rows of RGB pixels, the numpy array shape
H by W by 3). -/
structure PILImg where
  mode : String
  px : List (List Pixel)

/-- Lines 98-101: RGBA, CMYK, LAB and P are converted to RGB; other modes
are left as they are and then fail the check of line 103. -/
def modeAfterConvert (m : String) : String :=
  if m = "RGBA" ∨ m = "CMYK" ∨ m = "LAB" then ("RGB" : String)
  else if m = "P" then ("RGB" : String)
  else m

/-- One XObject with Subtype Image data.  decode bundles obj.get_data(),
Image.open and the mode conversions (lines 93-101, all inside the try of
line 92): error is an exception there, ok none is falsy data (line 94). -/
structure XObj where
  subtypeImage : Bool
  width : Nat
  height : Nat
  colorspace : Option CSVal
  decode : Except Unit (Option PILImg)

/-- Lines 80-89: the provisional flag contributed by this object. -/
def csFlagOf (o : XObj) : Bool :=
  match o.colorspace with
  | none => false
  | some cs => csIndicatesColor (csName cs)

/-- One entry of the XObject enumeration.  fetchErr is an exception while
resolving the entry (lines 66-68), caught only by the resource handler of
line 159, which abandons the whole loop.  objErr is an exception inside the
per-object try (lines 71-157) but outside the decode try, handled by the
continue of line 158. -/
inductive ObjEntry
  | fetchErr
  | objErr
  | obj (o : XObj)

/- ===== pixel statistics, lines 104-149 ===== -/

def takeEvery (step : Nat) (l : List α) : List α :=
  (l.enum.filter (fun p => p.1 % step == 0)).map Prod.snd

/-- Lines 108-110: images above a million pixels are strided. -/
def maybeDownsample (px : List (List Pixel)) : List (List Pixel) :=
  let h := px.length
  let w := (px.headD []).length
  if h * w > 1000000 then
    let step := max 1 (min h w / 100)
    (takeEvery step px).map (takeEvery step)
  else px

def pxList (arr : List (List Pixel)) : List Pixel := arr.flatten

/-- Line 124: shape 0 times shape 1. -/
def totalPixels (arr : List (List Pixel)) : Nat :=
  arr.length * (arr.headD []).length

/-- Lines 116-122: some channel-pair difference strictly exceeds the
threshold. -/
def anyDiffGt (ct : Nat) (p : Pixel) : Bool :=
  decide (ct < ((p.1 : ℤ) - (p.2.1 : ℤ)).natAbs) ||
  decide (ct < ((p.1 : ℤ) - (p.2.2 : ℤ)).natAbs) ||
  decide (ct < ((p.2.1 : ℤ) - (p.2.2 : ℤ)).natAbs)

def colorPixelCount (ct : Nat) (arr : List (List Pixel)) : Nat :=
  ((pxList arr).filter (anyDiffGt ct)).length

/-- Lines 130-131: not (r == g and g == b). -/
def nonGrayB (p : Pixel) : Bool := decide (¬(p.1 = p.2.1 ∧ p.2.1 = p.2.2))

def nonGrayCount (arr : List (List Pixel)) : Nat :=
  ((pxList arr).filter nonGrayB).length

/-- Line 138. -/
def yellowB (p : Pixel) : Bool :=
  decide ((p.1 : ℚ) > (p.2.1 : ℚ) * 0.8) &&
  decide ((p.2.1 : ℚ) > (p.2.2 : ℚ) * 1.2) &&
  decide ((p.1 : ℚ) > 100)

def yellowCount (arr : List (List Pixel)) : Nat :=
  ((pxList arr).filter yellowB).length

/-- Line 145. -/
def blueB (p : Pixel) : Bool :=
  decide ((p.2.2 : ℚ) > (p.1 : ℚ) * 1.2) &&
  decide ((p.2.2 : ℚ) > (p.2.1 : ℚ) * 1.2) &&
  decide ((p.2.2 : ℚ) > 100)

def blueCount (arr : List (List Pixel)) : Nat :=
  ((pxList arr).filter blueB).length

/-- Line 126. -/
def test1 (ct : Nat) (st : ℚ) (arr : List (List Pixel)) : Bool :=
  decide ((colorPixelCount ct arr : ℚ) / (totalPixels arr : ℚ) > st)

/-- Line 133. -/
def test2 (st : ℚ) (arr : List (List Pixel)) : Bool :=
  decide ((nonGrayCount arr : ℚ) / (totalPixels arr : ℚ) > st * 0.5)

/-- Line 141. -/
def test3 (st : ℚ) (arr : List (List Pixel)) : Bool :=
  decide ((yellowCount arr : ℚ) / (totalPixels arr : ℚ) > st * 0.1)

/-- Line 148. -/
def test4 (st : ℚ) (arr : List (List Pixel)) : Bool :=
  decide ((blueCount arr : ℚ) / (totalPixels arr : ℚ) > st * 0.1)

/-- Lines 112-149 on an array that already passed the shape check and the
downsampling: any of the four tests returns True. -/
def analyzeRGB (ct : Nat) (st : ℚ) (arr : List (List Pixel)) : Bool :=
  test1 ct st arr || test2 st arr || test3 st arr || test4 st arr

/- ===== the XObject loop, lines 59-160 ===== -/

/-- The loop of lines 65-158 with the accumulated has_color flag.  Reaching
the end of the list, or a fetchErr, falls through to the return of line 165
(respectively via the resource handler of lines 159-160) and yields the
accumulated flag. -/
def processXObjects (ct : Nat) (st : ℚ) : Bool → List ObjEntry → Bool
  | hc, [] => hc
  | hc, ObjEntry.fetchErr :: _ => hc
  | hc, ObjEntry.objErr :: rest => processXObjects ct st hc rest
  | hc, ObjEntry.obj o :: rest =>
    if o.subtypeImage then
      if o.width = 0 ∨ o.height = 0 then processXObjects ct st hc rest
      else
        match o.decode with
        | .error _ =>
          if hc || csFlagOf o then true
          else processXObjects ct st (hc || csFlagOf o) rest
        | .ok none => processXObjects ct st (hc || csFlagOf o) rest
        | .ok (some img) =>
          if modeAfterConvert img.mode = "RGB" then
            if analyzeRGB ct st (maybeDownsample img.px) then true
            else processXObjects ct st (hc || csFlagOf o) rest
          else processXObjects ct st (hc || csFlagOf o) rest
    else processXObjects ct st hc rest

/- ===== the page ===== -/

/-- A page as is_color_page and extract_figure_info see it.  contents is
None when the page has no Contents key (line 23); an error value is an
exception while extracting or scanning the stream text (handler line 54).
xobjects is None when there is no XObject resource (lines 58-59); an error
value is an exception resolving the XObject dictionary (handler line 159).
txt is the result of page.extract_text() (line 180), error when it
raises. -/
structure Page where
  hasExtractAttr : Bool
  contents : Option (Except Unit ScanData)
  xobjects : Option (Except Unit (List ObjEntry))
  txt : Except Unit String

/-- Lines 22-55: the vector-graphics verdict of the page. -/
def pageVector (p : Page) : Bool :=
  if p.hasExtractAttr then
    match p.contents with
    | some (.ok m) => vectorVerdict m
    | some (.error _) => false
    | none => false
  else false

/-- Lines 57-160 followed by the return of line 165, with has_color
initially False. -/
def pageImages (p : Page) (ct : Nat) (st : ℚ) : Bool :=
  match p.xobjects with
  | some (.ok es) => processXObjects ct st false es
  | some (.error _) => false
  | none => false

/-- is_color_page, lines 7-165. -/
def is_color_page (p : Page) (ct : Nat) (st : ℚ) : Bool :=
  if pageVector p then true else pageImages p ct st

/- ===== figure extraction, lines 167-217 ===== -/

def isSpaceC (c : Char) : Bool :=
  c == ' ' || c == '\t' || c == '\n' || c == '\r' || c.toNat == 11 || c.toNat == 12

def figLit : List Char := ['f', 'i', 'g', 'u', 'r', 'e']

/-- Case-insensitive literal match, dropping the literal from the input. -/
def dropLitCI : List Char → List Char → Option (List Char)
  | [], s => some s
  | _ :: _, [] => none
  | l :: ls, c :: cs => if c.toLower == l then dropLitCI ls cs else none

def notEol (c : Char) : Bool := !(c == '\n' || c == '\r')

/-- One attempted match of the pattern of line 186 at the head of the input:
the word Figure (ignoring case), one or more whitespace characters, digits,
a dash, digits, an optional period, optional whitespace, then the greedy
caption group of characters other than a line break.  Returns the two digit
groups, the caption group, and the rest of the input after the match.  All
subpatterns have disjoint follow sets, so greedy matching without
backtracking is exact. -/
def matchFigAt (s : List Char) : Option (List Char × List Char × List Char × List Char) :=
  match dropLitCI figLit s with
  | none => none
  | some s1 =>
    if (s1.takeWhile isSpaceC).isEmpty then none
    else
      let s2 := s1.dropWhile isSpaceC
      let d1 := s2.takeWhile isDigitC
      if d1.isEmpty then none
      else
        match s2.dropWhile isDigitC with
        | '-' :: s4 =>
          let d2 := s4.takeWhile isDigitC
          if d2.isEmpty then none
          else
            let s5 := s4.dropWhile isDigitC
            let s6 := match s5 with
              | '.' :: t => t
              | _ => s5
            let s7 := s6.dropWhile isSpaceC
            some (d1, d2, s7.takeWhile notEol, s7.dropWhile notEol)
        | _ => none

/-- re.findall scan: leftmost matches, continuing after each match.  A
successful match consumes at least eight characters, so fuel equal to the
input length never runs out. -/
def findAllFigAux : Nat → List Char → List (List Char × List Char × List Char)
  | 0, _ => []
  | _ + 1, [] => []
  | fuel + 1, c :: rest =>
    match matchFigAt (c :: rest) with
    | some (d1, d2, cap, rest2) => (d1, d2, cap) :: findAllFigAux fuel rest2
    | none => findAllFigAux fuel rest

def findAllFig (s : List Char) : List (List Char × List Char × List Char) :=
  findAllFigAux s.length s

/-- Python str.strip(). -/
def pyStrip (l : List Char) : List Char :=
  ((l.dropWhile isSpaceC).reverse.dropWhile isSpaceC).reverse

/-- Python str.rstrip with a period argument (line 197). -/
def rstripDots (l : List Char) : List Char :=
  (l.reverse.dropWhile (fun c => c == '.')).reverse

/-- extract_figure_info, lines 167-204.  A failing or falsy extract_text
yields the empty list (lines 181-182 and 203-204); each match with a
nonempty stripped caption contributes one pair (lines 191-199). -/
def extract_figure_info (p : Page) : List (String × String) :=
  match p.txt with
  | .error _ => []
  | .ok t =>
    if t.data.isEmpty then []
    else
      (findAllFig t.data).filterMap (fun m =>
        let cap := pyStrip m.2.2
        if cap.isEmpty then none
        else some (String.mk (m.1 ++ '-' :: m.2.1), String.mk (rstripDots cap)))

/- ===== find_figure_pages, lines 219-314 ===== -/

/-- One extracted figure occurrence, lines 253-258. -/
structure FigureRecord where
  figure_number : String
  caption : String
  pdf_page : Nat
  book_page : Int
deriving DecidableEq

/-- The page loop of lines 242-258: the records of page i (zero-based) carry
pdf_page i + 1 and book_page i + 1 - offset. -/
def collectAux (off : Int) : Nat → List Page → List FigureRecord
  | _, [] => []
  | i, p :: ps =>
    ((extract_figure_info p).map (fun fc =>
      ⟨fc.1, fc.2, i + 1, (i + 1 : Int) - off⟩))
      ++ collectAux off (i + 1) ps

def collect_figures (pages : List Page) (off : Int) : List FigureRecord :=
  collectAux off 0 pages

/-- Line 270. -/
def bookFigures (pages : List Page) (off : Int) : List FigureRecord :=
  (collect_figures pages off).filter (fun f => decide (0 < f.book_page))

/-- Line 271. -/
def frontMatterFigures (pages : List Page) (off : Int) : List FigureRecord :=
  (collect_figures pages off).filter (fun f => decide (f.book_page ≤ 0))

/-- Python split on a dash (line 288). -/
def splitOnDash : List Char → List (List Char)
  | [] => [[]]
  | c :: rest =>
    let r := splitOnDash rest
    if c == '-' then [] :: r else (c :: r.headD []) :: r.tail

/-- Python int() on a digit string. -/
def digitsToNat (l : List Char) : Nat :=
  l.foldl (fun a c => a * 10 + (c.toNat - 48)) 0

/-- sort_key of lines 287-289 as a function of the figure_number string.
Figure numbers produced by the extractor always contain a dash between two
digit groups; the remaining arms are unreachable for them. -/
def keyOf (s : String) : Nat × Nat :=
  match splitOnDash s.data with
  | a :: b :: _ => (digitsToNat a, digitsToNat b)
  | [a] => (digitsToNat a, 0)
  | [] => (0, 0)

def sort_key (f : FigureRecord) : Nat × Nat := keyOf f.figure_number

/-- The ordering used by sorted(book_figures, key=sort_key): Python tuples
compare lexicographically. -/
def figRel (a b : FigureRecord) : Prop :=
  (sort_key a).1 < (sort_key b).1 ∨
    ((sort_key a).1 = (sort_key b).1 ∧ (sort_key a).2 ≤ (sort_key b).2)

instance : DecidableRel figRel := fun a b => by
  unfold figRel
  infer_instance

instance : IsTotal FigureRecord figRel := by
  constructor
  intro a b
  unfold figRel
  omega

instance : IsTrans FigureRecord figRel := by
  constructor
  intro a b c
  unfold figRel
  omega

/-- sorted(book_figures, key=sort_key), line 291: Python sorted is a stable
sort by the key, which any stable sort with the same ordering realises. -/
def sortedFigures (l : List FigureRecord) : List FigureRecord :=
  List.insertionSort figRel l

/-- find_figure_pages, lines 219-314, reduced to its result value: a failure
opening or parsing the document is caught by the handler of lines 312-314
and yields the empty list; otherwise the book pages of the book-content
records are returned (line 310). -/
def find_figure_pages (doc : Except Unit (List Page)) (off : Int) : List Int :=
  match doc with
  | .error _ => []
  | .ok pages => (bookFigures pages off).map (fun f => f.book_page)

/- ===== predicates used to state the claims ===== -/

/-- A decode outcome that contributes no positive signal of its own: an
exception, falsy data, a non-RGB final mode, or an analysed raster on which
all four tests are negative. -/
def decodeNoSignal (ct : Nat) (st : ℚ) : Except Unit (Option PILImg) → Prop
  | .error _ => True
  | .ok none => True
  | .ok (some img) =>
    modeAfterConvert img.mode ≠ ("RGB" : String) ∨
      analyzeRGB ct st (maybeDownsample img.px) = false

/-- An XObject entry that neither returns early nor raises the accumulated
flag: not an image, zero-sized, or an image whose colorspace does not match
the color families and whose decode contributes no signal. -/
def entryNoSignal (ct : Nat) (st : ℚ) : ObjEntry → Prop
  | .fetchErr => True
  | .objErr => True
  | .obj o => o.subtypeImage = false ∨ o.width = 0 ∨ o.height = 0 ∨
      (csFlagOf o = false ∧ decodeNoSignal ct st o.decode)

/- ===== concrete inputs used by counterexamples and witnesses ===== -/

/-- A content stream with no matches at all. -/
def emptyScan : ScanData := ⟨[], [], [], []⟩

/-- A one-pixel fully gray RGB image. -/
def grayImg : PILImg := ⟨"RGB", [[(0, 0, 0)]]⟩

/-- An image object declaring DeviceRGB whose pixels decode to pure gray. -/
def rgbObj : XObj := ⟨true, 1, 1, some (CSVal.single ("/DeviceRGB")), .ok (some grayImg)⟩

/-- A page with no vector signal and the single gray-pixel DeviceRGB image. -/
def c1page : Page := ⟨true, some (.ok emptyScan), some (.ok [ObjEntry.obj rgbObj]), .ok ("")⟩

/-- An image object with a gray colorspace whose decode raises. -/
def grayFailObj : XObj := ⟨true, 1, 1, some (CSVal.single ("/DeviceGray")), .error ()⟩

/-- A page whose only image is the failing gray-colorspace one. -/
def c1wpage : Page := ⟨true, some (.ok emptyScan), some (.ok [ObjEntry.obj grayFailObj]), .ok ("")⟩

/-- A content stream with one non-equal RGB fill triple. -/
def c2scan : ScanData := ⟨[(1, 0, 0)], [], [], []⟩

/-- A page carrying that triple and no images. -/
def c2page : Page := ⟨true, some (.ok c2scan), none, .error ()⟩

/-- The page of the figure-extraction claim. -/
def figPage32 : Page :=
  ⟨true, none, none, .ok ("Figure 3-2. A sample diagram.\nFigure 3-2 continued" : String)⟩

/-- Ten pixels, three of which have a channel difference above three. -/
def c5pos : List (List Pixel) :=
  [[(10, 0, 0), (10, 0, 0), (10, 0, 0), (0, 0, 0), (0, 0, 0),
    (0, 0, 0), (0, 0, 0), (0, 0, 0), (0, 0, 0), (0, 0, 0)]]

/-- Ten pixels, two of which have a channel difference above three. -/
def c5neg : List (List Pixel) :=
  [[(10, 0, 0), (10, 0, 0), (0, 0, 0), (0, 0, 0), (0, 0, 0),
    (0, 0, 0), (0, 0, 0), (0, 0, 0), (0, 0, 0), (0, 0, 0)]]

/-- A one-page document whose only page has one captioned figure. -/
def c6page : Page := ⟨true, none, none, .ok ("Figure 1-1. Cap." : String)⟩

/-- The record that run produces with offset one: book page exactly zero. -/
def c6rec : FigureRecord := ⟨"1-1", "Cap", 1, 0⟩

def fig29 : FigureRecord := ⟨"2-9", "", 1, 1⟩

def fig210 : FigureRecord := ⟨"2-10", "", 2, 2⟩

def fig101 : FigureRecord := ⟨"10-1", "", 3, 3⟩

/-- The three records of the sort-order claim, deliberately out of order. -/
def figList7 : List FigureRecord := [fig101, fig210, fig29]

/-- A page whose content-stream extraction raises. -/
def c8page : Page := ⟨true, some (.error ()), none, .error ()⟩

/-- An image object with no declared colorspace whose decode raises. -/
def grayFailObj2 : XObj := ⟨true, 1, 1, none, .error ()⟩

/-- A page with a flag-raising image followed by a failing flag-free image. -/
def c10page : Page :=
  ⟨true, some (.ok emptyScan),
    some (.ok [ObjEntry.obj rgbObj, ObjEntry.obj grayFailObj2]), .error ()⟩

/- ===== helper lemmas ===== -/

/-- scanTriples never raises: parsed triples carry no failing operation. -/
theorem scanTriples_ok (l : List (ℚ × ℚ × ℚ)) : ∃ b, scanTriples l = .ok b := by
  induction l with
  | nil => exact ⟨false, rfl⟩
  | cons a rest ih =>
    by_cases hA : allEqTriple a = true
    · simpa [scanTriples, hA] using ih
    · exact ⟨true, by simp [scanTriples, hA]⟩

/-- A not-all-equal triple anywhere in the list makes scanTriples positive. -/
theorem scanTriples_found (l : List (ℚ × ℚ × ℚ))
    (h : ∃ t ∈ l, allEqTriple t = false) : scanTriples l = .ok true := by
  induction l with
  | nil =>
    rcases h with ⟨t, ht, _⟩
    exact absurd ht (List.not_mem_nil t)
  | cons a rest ih =>
    rcases h with ⟨t, ht, hne⟩
    rcases List.mem_cons.mp ht with rfl | hmem
    · simp [scanTriples, hne]
    · by_cases hA : allEqTriple a = true
      · simpa [scanTriples, hA] using ih ⟨t, hmem, hne⟩
      · simp [scanTriples, hA]

/-- A non-equal triple among the rg or RG matches makes the content-stream
verdict positive. -/
theorem vectorVerdict_found (m : ScanData)
    (h : ∃ t ∈ m.rgMatches ++ m.rgStrokeMatches, allEqTriple t = false) :
    vectorVerdict m = true := by
  rcases h with ⟨t, ht, hne⟩
  rcases List.mem_append.mp ht with h1 | h2
  · have hs : scanTriples m.rgMatches = .ok true := scanTriples_found _ ⟨t, h1, hne⟩
    simp [vectorVerdict, vectorScanE, hs]
  · rcases scanTriples_ok m.rgMatches with ⟨b, hb⟩
    cases b
    · have hs : scanTriples m.rgStrokeMatches = .ok true := scanTriples_found _ ⟨t, h2, hne⟩
      simp [vectorVerdict, vectorScanE, hb, hs]
    · simp [vectorVerdict, vectorScanE, hb]

/-- Once the accumulated flag is true the loop can only produce true: every
early return returns True and the final return yields the flag. -/
theorem processXObjects_true (ct : Nat) (st : ℚ) :
    ∀ es : List ObjEntry, processXObjects ct st true es = true := by
  intro es
  induction es with
  | nil => rfl
  | cons e rest ih =>
    cases e with
    | fetchErr => rfl
    | objErr => simpa [processXObjects] using ih
    | obj o =>
      by_cases hsub : o.subtypeImage
      · by_cases hwh : o.width = 0 ∨ o.height = 0
        · simpa [processXObjects, hsub, hwh] using ih
        · cases hd : o.decode with
          | error e => simp [processXObjects, hsub, hwh, hd]
          | ok oi =>
            cases oi with
            | none => simpa [processXObjects, hsub, hwh, hd] using ih
            | some img =>
              by_cases hm : modeAfterConvert img.mode = "RGB"
              · by_cases ha : analyzeRGB ct st (maybeDownsample img.px) = true
                · simp [processXObjects, hsub, hwh, hd, hm, ha]
                · simp only [Bool.not_eq_true] at ha
                  simpa [processXObjects, hsub, hwh, hd, hm, ha] using ih
              · simpa [processXObjects, hsub, hwh, hd, hm] using ih
      · simpa [processXObjects, hsub] using ih

/-- If every entry is signal-free the loop starting with a false flag stays
false. -/
theorem processXObjects_noSignal (ct : Nat) (st : ℚ) :
    ∀ es : List ObjEntry, (∀ e ∈ es, entryNoSignal ct st e) →
      processXObjects ct st false es = false := by
  intro es
  induction es with
  | nil => intro _; rfl
  | cons e rest ih =>
    intro h
    have he := h e (List.mem_cons_self e rest)
    have hrest := fun x hx => h x (List.mem_cons_of_mem e hx)
    cases e with
    | fetchErr => rfl
    | objErr => simpa [processXObjects] using ih hrest
    | obj o =>
      by_cases hsub : o.subtypeImage
      · by_cases hwh : o.width = 0 ∨ o.height = 0
        · simpa [processXObjects, hsub, hwh] using ih hrest
        · rcases he with hs | hw | hh | ⟨hcs, hdec⟩
          · exact absurd hs (by simp [hsub])
          · exact absurd (Or.inl hw) hwh
          · exact absurd (Or.inr hh) hwh
          · cases hd : o.decode with
            | error e => simpa [processXObjects, hsub, hwh, hd, hcs] using ih hrest
            | ok oi =>
              cases oi with
              | none => simpa [processXObjects, hsub, hwh, hd, hcs] using ih hrest
              | some img =>
                have hdec2 : modeAfterConvert img.mode ≠ ("RGB" : String) ∨
                    analyzeRGB ct st (maybeDownsample img.px) = false := by
                  rw [hd] at hdec
                  exact hdec
                rcases hdec2 with hm | ha
                · simpa [processXObjects, hsub, hwh, hd, hcs, hm] using ih hrest
                · by_cases hm : modeAfterConvert img.mode = "RGB"
                  · simpa [processXObjects, hsub, hwh, hd, hcs, hm, ha] using ih hrest
                  · simpa [processXObjects, hsub, hwh, hd, hcs, hm] using ih hrest
      · simpa [processXObjects, hsub] using ih hrest

/-- Reaching an image that raises the flag forces the loop to true, for any
incoming flag, provided no fetch error cuts the loop before it. -/
theorem processXObjects_reach (ct : Nat) (st : ℚ) (oA : XObj)
    (hAsub : oA.subtypeImage = true) (hAw : oA.width ≠ 0) (hAh : oA.height ≠ 0)
    (hAcs : csFlagOf oA = true) :
    ∀ l1 : List ObjEntry, ObjEntry.fetchErr ∉ l1 → ∀ hc rest,
      processXObjects ct st hc (l1 ++ ObjEntry.obj oA :: rest) = true := by
  intro l1
  induction l1 with
  | nil =>
    intro _ hc rest
    have hwh : ¬(oA.width = 0 ∨ oA.height = 0) := by
      rintro (h | h)
      · exact hAw h
      · exact hAh h
    cases hd : oA.decode with
    | error e => simp [processXObjects, hAsub, hwh, hd, hAcs]
    | ok oi =>
      cases oi with
      | none =>
        simp [processXObjects, hAsub, hwh, hd, hAcs, processXObjects_true]
      | some img =>
        by_cases hm : modeAfterConvert img.mode = "RGB"
        · by_cases ha : analyzeRGB ct st (maybeDownsample img.px) = true
          · simp [processXObjects, hAsub, hwh, hd, hm, ha]
          · simp only [Bool.not_eq_true] at ha
            simp [processXObjects, hAsub, hwh, hd, hm, ha, hAcs, processXObjects_true]
        · simp [processXObjects, hAsub, hwh, hd, hm, hAcs, processXObjects_true]
  | cons e l1t ih =>
    intro hnf hc rest
    have hnf2 : ObjEntry.fetchErr ∉ l1t := fun hx => hnf (List.mem_cons_of_mem e hx)
    have hne : e ≠ ObjEntry.fetchErr := fun hx => hnf (hx ▸ List.mem_cons_self e l1t)
    cases e with
    | fetchErr => exact absurd rfl hne
    | objErr => simpa [processXObjects] using ih hnf2 hc rest
    | obj o =>
      by_cases hsub : o.subtypeImage
      · by_cases hwh : o.width = 0 ∨ o.height = 0
        · simpa [processXObjects, hsub, hwh] using ih hnf2 hc rest
        · cases hd : o.decode with
          | error e2 =>
            by_cases hf : (hc || csFlagOf o) = true
            · simp [processXObjects, hsub, hwh, hd, hf]
            · simp only [Bool.not_eq_true] at hf
              simpa [processXObjects, hsub, hwh, hd, hf] using ih hnf2 _ rest
          | ok oi =>
            cases oi with
            | none => simpa [processXObjects, hsub, hwh, hd] using ih hnf2 _ rest
            | some img =>
              by_cases hm : modeAfterConvert img.mode = "RGB"
              · by_cases ha : analyzeRGB ct st (maybeDownsample img.px) = true
                · simp [processXObjects, hsub, hwh, hd, hm, ha]
                · simp only [Bool.not_eq_true] at ha
                  simpa [processXObjects, hsub, hwh, hd, hm, ha] using ih hnf2 _ rest
              · simpa [processXObjects, hsub, hwh, hd, hm] using ih hnf2 _ rest
      · simpa [processXObjects, hsub] using ih hnf2 hc rest

/-- Every record built by the page loop satisfies the offset equation. -/
theorem collectAux_book_page (off : Int) :
    ∀ (i : Nat) (ps : List Page) (f : FigureRecord), f ∈ collectAux off i ps →
      f.book_page = (f.pdf_page : Int) - off := by
  intro i ps
  induction ps generalizing i with
  | nil =>
    intro f hf
    simp [collectAux] at hf
  | cons p rest ih =>
    intro f hf
    simp only [collectAux, List.mem_append, List.mem_map] at hf
    rcases hf with ⟨fc, _, rfl⟩ | hmem
    · push_cast
      ring
    · exact ih (i + 1) f hmem

/- ===== claims ===== -/

/-- Claim C1, counterexample: a page with no vector-color signal whose single
embedded image declares DeviceRGB and decodes successfully with all four
pixel tests negative.  The claim says is_color_page must return false, but
the function ends with return has_color (line 165), so the metadata flag
alone already yields true. -/
theorem claim_C1_cex :
    pageVector c1page = false ∧
    c1page.xobjects = some (Except.ok [ObjEntry.obj rgbObj]) ∧
    rgbObj.decode = Except.ok (some grayImg) ∧
    analyzeRGB 3 (1/1000) (maybeDownsample grayImg.px) = false ∧
    is_color_page c1page 3 (1/1000) = true := by
  refine ⟨rfl, rfl, rfl, ?_, ?_⟩
  · norm_num [analyzeRGB, test1, test2, test3, test4, colorPixelCount, nonGrayCount,
      yellowCount, blueCount, pxList, maybeDownsample, totalPixels, anyDiffGt, nonGrayB,
      yellowB, blueB, grayImg]
  · norm_num [is_color_page, pageVector, pageImages, processXObjects, vectorVerdict,
      vectorScanE, scanTriples, scanGrays, analyzeRGB, test1, test2, test3, test4,
      colorPixelCount, nonGrayCount, yellowCount, blueCount, pxList, maybeDownsample,
      totalPixels, csFlagOf, csName, csIndicatesColor, hasSub, startsWith, anyDiffGt,
      nonGrayB, yellowB, blueB, modeAfterConvert, c1page, rgbObj, grayImg, emptyScan]

/-- Claim C1, amended: with no vector-color signal, a page yields false when
every image is skipped, signal-free after decoding, or failing, PROVIDED in
addition that no inspected image declares an RGB, Lab or DeviceRGB
colorspace; and conversely the colorspace-metadata flag alone is sufficient:
an inspected image that raises it forces the verdict true even when every
decode succeeds with negative tests, because the function finally returns
the accumulated has_color flag. -/
theorem claim_C1_amended :
    (∀ (p : Page) (ct : Nat) (st : ℚ), pageVector p = false →
      (∀ es, p.xobjects = some (Except.ok es) → ∀ e ∈ es, entryNoSignal ct st e) →
      is_color_page p ct st = false) ∧
    (∀ (p : Page) (ct : Nat) (st : ℚ) (o : XObj) (rest : List ObjEntry),
      p.xobjects = some (Except.ok (ObjEntry.obj o :: rest)) →
      o.subtypeImage = true → o.width ≠ 0 → o.height ≠ 0 → csFlagOf o = true →
      is_color_page p ct st = true) := by
  constructor
  · intro p ct st hvec himg
    rw [is_color_page, hvec]
    simp only [Bool.false_eq_true, if_false, pageImages]
    cases hx : p.xobjects with
    | none => rfl
    | some r =>
      cases r with
      | error e => rfl
      | ok es => exact processXObjects_noSignal ct st es (himg es hx)
  · intro p ct st o rest hx hsub hw hh hcs
    rw [is_color_page]
    by_cases hvec : pageVector p = true
    · simp [hvec]
    · simp only [Bool.not_eq_true] at hvec
      rw [hvec]
      simp only [Bool.false_eq_true, if_false, pageImages, hx]
      have := processXObjects_reach ct st o hsub hw hh hcs [] (by simp) false rest
      simpa using this

/-- Claim C1, witness for the amended theorem: a page whose single image has
a DeviceGray colorspace and a failing decode yields false, and the
counterexample page with the DeviceRGB gray image yields true. -/
theorem claim_C1_witness :
    is_color_page c1wpage 3 (1/1000) = false ∧
    is_color_page c1page 3 (1/1000) = true := by
  constructor
  · apply claim_C1_amended.1 c1wpage 3 (1/1000)
    · rfl
    · intro es hes e he
      have hes2 : es = [ObjEntry.obj grayFailObj] := by
        simpa [c1wpage] using hes.symm
      subst hes2
      rcases List.mem_singleton.mp he with rfl
      refine Or.inr (Or.inr (Or.inr ⟨by decide, ?_⟩))
      simp [grayFailObj, decodeNoSignal]
  · exact claim_C1_amended.2 c1page 3 (1/1000) rgbObj [] rfl rfl
      (by decide) (by decide) (by decide)

/-- Claim C2: a page whose content stream yields an rg or RG triple with not
all components equal is classified colored, regardless of its images; the
scan short-circuits on the first such triple. -/
theorem claim_C2 (p : Page) (ct : Nat) (st : ℚ) (m : ScanData)
    (hattr : p.hasExtractAttr = true)
    (hc : p.contents = some (Except.ok m))
    (ht : ∃ t ∈ m.rgMatches ++ m.rgStrokeMatches, allEqTriple t = false) :
    is_color_page p ct st = true := by
  have hv : vectorVerdict m = true := vectorVerdict_found m ht
  have hp : pageVector p = true := by
    rw [pageVector, hattr, hc]
    simpa using hv
  simp [is_color_page, hp]

/-- Claim C2, witness: a page with the single fill triple 1 0 0 and no
images at all is classified colored. -/
theorem claim_C2_witness : is_color_page c2page 3 (1/1000) = true := by
  apply claim_C2 c2page 3 (1/1000) c2scan rfl rfl
  refine ⟨(1, 0, 0), by simp [c2scan], ?_⟩
  simp only [allEqTriple, decide_eq_false_iff_not]
  norm_num

/-- Claim C3, counterexample: on the text of the claim the second match
captures the word continued as its caption, which is nonempty and therefore
kept, so the extractor returns two records, not one. -/
theorem claim_C3_cex :
    figPage32.txt =
      Except.ok (("Figure 3-2. A sample diagram.\nFigure 3-2 continued" : String)) ∧
    extract_figure_info figPage32 =
      [(("3-2" : String), ("A sample diagram" : String)),
       (("3-2" : String), ("continued" : String))] ∧
    (extract_figure_info figPage32).length ≠ 1 := by
  refine ⟨rfl, by decide, by decide⟩

/-- Claim C3, amended: the page yields exactly two records, 3-2 with caption
A sample diagram and 3-2 with caption continued; the empty-caption guard
only drops matches with nothing left on the line after the figure number. -/
theorem claim_C3_amended :
    extract_figure_info figPage32 =
      [(("3-2" : String), ("A sample diagram" : String)),
       (("3-2" : String), ("continued" : String))] := by
  decide

/-- Claim C4: on a raster in which every pixel has equal channels, all four
tests are negative and the analyzer verdict is false, for any nonnegative
sample threshold. -/
theorem claim_C4 (ct : Nat) (st : ℚ) (arr : List (List Pixel))
    (hst : 0 ≤ st)
    (hgray : ∀ p ∈ pxList arr, p.1 = p.2.1 ∧ p.2.1 = p.2.2) :
    test1 ct st arr = false ∧ test2 st arr = false ∧ test3 st arr = false ∧
    test4 st arr = false ∧ analyzeRGB ct st arr = false := by
  have hc0 : colorPixelCount ct arr = 0 := by
    simp only [colorPixelCount, List.length_eq_zero, List.filter_eq_nil_iff]
    intro p hp
    obtain ⟨h1, h2⟩ := hgray p hp
    simp [anyDiffGt, h1, h2]
  have hn0 : nonGrayCount arr = 0 := by
    simp only [nonGrayCount, List.length_eq_zero, List.filter_eq_nil_iff]
    intro p hp
    simp [nonGrayB, hgray p hp]
  have hy0 : yellowCount arr = 0 := by
    simp only [yellowCount, List.length_eq_zero, List.filter_eq_nil_iff]
    intro p hp
    obtain ⟨h1, h2⟩ := hgray p hp
    have hb : ¬((p.2.2 : ℚ) * 1.2 < (p.2.1 : ℚ)) := by
      rw [h2]
      have h0 : (0 : ℚ) ≤ (p.2.2 : ℚ) := Nat.cast_nonneg _
      nlinarith
    simp [yellowB, gt_iff_lt, hb]
  have hb0 : blueCount arr = 0 := by
    simp only [blueCount, List.length_eq_zero, List.filter_eq_nil_iff]
    intro p hp
    obtain ⟨h1, h2⟩ := hgray p hp
    have hb : ¬((p.1 : ℚ) * 1.2 < (p.2.2 : ℚ)) := by
      rw [h1, h2]
      have h0 : (0 : ℚ) ≤ (p.2.2 : ℚ) := Nat.cast_nonneg _
      nlinarith
    simp [blueB, gt_iff_lt, hb]
  have ht1 : test1 ct st arr = false := by
    simp only [test1, hc0, Nat.cast_zero, zero_div, gt_iff_lt,
      decide_eq_false_iff_not, not_lt]
    exact hst
  have ht2 : test2 st arr = false := by
    simp only [test2, hn0, Nat.cast_zero, zero_div, gt_iff_lt,
      decide_eq_false_iff_not, not_lt]
    nlinarith
  have ht3 : test3 st arr = false := by
    simp only [test3, hy0, Nat.cast_zero, zero_div, gt_iff_lt,
      decide_eq_false_iff_not, not_lt]
    nlinarith
  have ht4 : test4 st arr = false := by
    simp only [test4, hb0, Nat.cast_zero, zero_div, gt_iff_lt,
      decide_eq_false_iff_not, not_lt]
    nlinarith
  exact ⟨ht1, ht2, ht3, ht4, by simp [analyzeRGB, ht1, ht2, ht3, ht4]⟩

/-- Claim C4, witness: a one-pixel gray raster at the default thresholds. -/
theorem claim_C4_witness :
    test1 3 (1/1000) [[(5, 5, 5)]] = false ∧
    analyzeRGB 3 (1/1000) [[(5, 5, 5)]] = false := by
  have h := claim_C4 3 (1/1000) [[(5, 5, 5)]] (by norm_num)
    (by intro p hp; simp [pxList] at hp; simp [hp])
  exact ⟨h.1, h.2.2.2.2⟩

/-- Claim C5: the channel-difference test compares the colored fraction to
the sample threshold with a strict inequality: a count of exactly
threshold times total plus one is positive, a count of exactly threshold
times total is negative. -/
theorem claim_C5 (ct : Nat) (st : ℚ) (arr : List (List Pixel))
    (hT : 0 < totalPixels arr) :
    ((colorPixelCount ct arr : ℚ) = st * (totalPixels arr : ℚ) + 1 →
      test1 ct st arr = true) ∧
    ((colorPixelCount ct arr : ℚ) = st * (totalPixels arr : ℚ) →
      test1 ct st arr = false) := by
  have hT2 : (0 : ℚ) < (totalPixels arr : ℚ) := by exact_mod_cast hT
  constructor
  · intro h
    have hlt : st < (colorPixelCount ct arr : ℚ) / (totalPixels arr : ℚ) := by
      rw [lt_div_iff₀ hT2, h]
      linarith
    simp only [test1, gt_iff_lt, decide_eq_true_eq]
    exact hlt
  · intro h
    have hle : ¬ st < (colorPixelCount ct arr : ℚ) / (totalPixels arr : ℚ) := by
      rw [h, mul_div_assoc, div_self (ne_of_gt hT2), mul_one]
      exact lt_irrefl st
    simp only [test1, gt_iff_lt, decide_eq_false_iff_not]
    exact hle

/-- Claim C5, witness: with threshold one fifth over ten pixels, three
colored pixels trip the test and two do not. -/
theorem claim_C5_witness :
    test1 3 (1/5) c5pos = true ∧ test1 3 (1/5) c5neg = false := by
  have hcp : colorPixelCount 3 c5pos = 3 := by decide
  have hcn : colorPixelCount 3 c5neg = 2 := by decide
  have htp : totalPixels c5pos = 10 := by decide
  have htn : totalPixels c5neg = 10 := by decide
  constructor
  · apply (claim_C5 3 (1/5) c5pos (by decide)).1
    rw [hcp, htp]
    norm_num
  · apply (claim_C5 3 (1/5) c5neg (by decide)).2
    rw [hcn, htn]
    norm_num

/-- Claim C6: every record of a run satisfies book_page = pdf_page minus the
offset, membership in the book-content section is exactly positivity of the
book page, and a record with book page zero lands in front matter. -/
theorem claim_C6 (pages : List Page) (off : Int) (f : FigureRecord)
    (hf : f ∈ collect_figures pages off) :
    f.book_page = (f.pdf_page : Int) - off ∧
    (f ∈ bookFigures pages off ↔ 0 < f.book_page) ∧
    (f.book_page = 0 → f ∈ frontMatterFigures pages off) := by
  refine ⟨collectAux_book_page off 0 pages f hf, ?_, ?_⟩
  · constructor
    · intro hmem
      exact of_decide_eq_true (List.mem_filter.mp hmem).2
    · intro hpos
      exact List.mem_filter.mpr ⟨hf, decide_eq_true hpos⟩
  · intro h0
    exact List.mem_filter.mpr ⟨hf, decide_eq_true (by rw [h0])⟩

/-- Claim C6, witness: a single-page run with offset one produces a record
with pdf page one and book page zero, outside book content and inside front
matter. -/
theorem claim_C6_witness :
    c6rec.book_page = (c6rec.pdf_page : Int) - 1 ∧
    (c6rec ∈ bookFigures [c6page] 1 ↔ 0 < c6rec.book_page) ∧
    (c6rec.book_page = 0 → c6rec ∈ frontMatterFigures [c6page] 1) :=
  claim_C6 [c6page] 1 c6rec (by decide)

/-- A strictly smaller Python sort key forces a strictly smaller position in
the sorted output. -/
theorem sortedFigures_lt_of_key (l : List FigureRecord)
    (i j : Fin (sortedFigures l).length)
    (hk : (sort_key ((sortedFigures l).get i)).1 < (sort_key ((sortedFigures l).get j)).1 ∨
      ((sort_key ((sortedFigures l).get i)).1 = (sort_key ((sortedFigures l).get j)).1 ∧
       (sort_key ((sortedFigures l).get i)).2 < (sort_key ((sortedFigures l).get j)).2)) :
    i < j := by
  by_contra hij
  push_neg at hij
  rcases eq_or_lt_of_le hij with heq | hlt
  · subst heq
    omega
  · have hs : List.Sorted figRel (sortedFigures l) :=
      List.sorted_insertionSort figRel l
    have hrel := hs.rel_get_of_lt hlt
    unfold figRel at hrel
    omega

/-- Claim C7: in the sorted book-content listing the key comparison is
numeric per component, so 2-10 comes strictly after 2-9 and strictly before
10-1, in any list of records. -/
theorem claim_C7 (l : List FigureRecord) :
    (∀ i j : Fin (sortedFigures l).length,
      ((sortedFigures l).get i).figure_number = ("2-9" : String) →
      ((sortedFigures l).get j).figure_number = ("2-10" : String) → i < j) ∧
    (∀ i j : Fin (sortedFigures l).length,
      ((sortedFigures l).get i).figure_number = ("2-10" : String) →
      ((sortedFigures l).get j).figure_number = ("10-1" : String) → i < j) := by
  constructor
  · intro i j hi hj
    apply sortedFigures_lt_of_key
    simp only [sort_key, hi, hj]
    right
    exact ⟨by decide, by decide⟩
  · intro i j hi hj
    apply sortedFigures_lt_of_key
    simp only [sort_key, hi, hj]
    left
    decide

/-- Claim C7, witness: sorting the three records 10-1, 2-10, 2-9 places 2-9
first, 2-10 second, 10-1 third. -/
theorem claim_C7_witness :
    ((sortedFigures figList7).get ⟨0, by decide⟩).figure_number = ("2-9" : String) ∧
    ((sortedFigures figList7).get ⟨1, by decide⟩).figure_number = ("2-10" : String) ∧
    ((sortedFigures figList7).get ⟨2, by decide⟩).figure_number = ("10-1" : String) ∧
    (⟨0, by decide⟩ : Fin (sortedFigures figList7).length) < ⟨1, by decide⟩ ∧
    (⟨1, by decide⟩ : Fin (sortedFigures figList7).length) < ⟨2, by decide⟩ := by
  refine ⟨by decide, by decide, by decide, ?_, ?_⟩
  · exact (claim_C7 figList7).1 ⟨0, by decide⟩ ⟨1, by decide⟩ (by decide) (by decide)
  · exact (claim_C7 figList7).2 ⟨1, by decide⟩ ⟨2, by decide⟩ (by decide) (by decide)

/-- Claim C8: the classifier is total over its modelled inputs, always a
boolean; a failing content-stream extraction is absorbed and the image scan
still runs; a failing decode with no colorspace flag is absorbed and the
loop continues with the next entry; a per-object exception outside the
decode is absorbed by its continue as well. -/
theorem claim_C8 :
    (∀ (p : Page) (ct : Nat) (st : ℚ),
      is_color_page p ct st = true ∨ is_color_page p ct st = false) ∧
    (∀ (p : Page) (ct : Nat) (st : ℚ), p.contents = some (Except.error ()) →
      is_color_page p ct st = pageImages p ct st) ∧
    (∀ (ct : Nat) (st : ℚ) (o : XObj) (rest : List ObjEntry),
      o.decode = Except.error () → csFlagOf o = false →
      processXObjects ct st false (ObjEntry.obj o :: rest) =
        processXObjects ct st false rest) ∧
    (∀ (ct : Nat) (st : ℚ) (hc : Bool) (rest : List ObjEntry),
      processXObjects ct st hc (ObjEntry.objErr :: rest) =
        processXObjects ct st hc rest) := by
  refine ⟨?_, ?_, ?_, ?_⟩
  · intro p ct st
    cases h : is_color_page p ct st
    · exact Or.inr rfl
    · exact Or.inl rfl
  · intro p ct st hc
    have hv : pageVector p = false := by
      rw [pageVector, hc]
      cases p.hasExtractAttr <;> rfl
    rw [is_color_page, hv]
    rfl
  · intro ct st o rest hd hcs
    by_cases hsub : o.subtypeImage
    · by_cases hwh : o.width = 0 ∨ o.height = 0
      · simp [processXObjects, hsub, hwh]
      · simp [processXObjects, hsub, hwh, hd, hcs]
    · simp [processXObjects, hsub]
  · intro ct st hc rest
    rfl

/-- Claim C8, witness: a page with a raised content-stream extraction still
evaluates through its image scan, a failing DeviceGray image is skipped,
and a per-object error is skipped. -/
theorem claim_C8_witness :
    is_color_page c8page 3 (1/1000) = pageImages c8page 3 (1/1000) ∧
    processXObjects 3 (1/1000) false [ObjEntry.obj grayFailObj] =
      processXObjects 3 (1/1000) false [] ∧
    processXObjects 3 (1/1000) false [ObjEntry.objErr] =
      processXObjects 3 (1/1000) false [] := by
  refine ⟨?_, ?_, ?_⟩
  · exact claim_C8.2.1 c8page 3 (1/1000) rfl
  · exact claim_C8.2.2.1 3 (1/1000) grayFailObj [] rfl (by decide)
  · exact claim_C8.2.2.2 3 (1/1000) false []

/-- Claim C9: a failure opening or parsing the document is caught at top
level and find_figure_pages returns the empty list, for every offset. -/
theorem claim_C9 (off : Int) : find_figure_pages (Except.error ()) off = [] := rfl

/-- Claim C9, witness at the default offset. -/
theorem claim_C9_witness : find_figure_pages (Except.error ()) 33 = [] :=
  claim_C9 33

/-- Claim C10: the decode-failure fallback consults the has_color flag
accumulated across all images of the page: once an earlier image raised it,
the page verdict is true, and at the later failing image, whose own
colorspace raises no flag, the loop returns true on the spot. -/
theorem claim_C10 (p : Page) (ct : Nat) (st : ℚ)
    (l1 l2 l3 : List ObjEntry) (oA oB : XObj)
    (hx : p.xobjects =
      some (Except.ok (l1 ++ ObjEntry.obj oA :: (l2 ++ ObjEntry.obj oB :: l3))))
    (hl1 : ObjEntry.fetchErr ∉ l1)
    (hAsub : oA.subtypeImage = true) (hAw : oA.width ≠ 0) (hAh : oA.height ≠ 0)
    (hAcs : csFlagOf oA = true)
    (hBsub : oB.subtypeImage = true) (hBw : oB.width ≠ 0) (hBh : oB.height ≠ 0)
    (hBcs : csFlagOf oB = false) (hBfail : oB.decode = Except.error ()) :
    is_color_page p ct st = true ∧
    processXObjects ct st true (ObjEntry.obj oB :: l3) = true := by
  constructor
  · rw [is_color_page]
    by_cases hvec : pageVector p = true
    · simp [hvec]
    · simp only [Bool.not_eq_true] at hvec
      rw [hvec]
      simp only [Bool.false_eq_true, if_false, pageImages, hx]
      exact processXObjects_reach ct st oA hAsub hAw hAh hAcs l1 hl1 false _
  · have hwh : ¬(oB.width = 0 ∨ oB.height = 0) := by
      rintro (h | h)
      · exact hBw h
      · exact hBh h
    simp [processXObjects, hBsub, hwh, hBfail]

/-- Claim C10, witness: a page whose first image declares DeviceRGB and
decodes to gray pixels, followed by an image with no colorspace and a
failing decode, is classified colored. -/
theorem claim_C10_witness :
    is_color_page c10page 3 (1/1000) = true ∧
    processXObjects 3 (1/1000) true [ObjEntry.obj grayFailObj2] = true := by
  have h := claim_C10 c10page 3 (1/1000) [] [] [] rgbObj grayFailObj2
    rfl (by simp) rfl (by decide) (by decide) (by decide)
    rfl (by decide) (by decide) (by decide) rfl
  exact h
